import Mathlib

/-!
Shallow embedding of the reflective dev-tool command/tool registry of
`bevy_dev_tools` (`src/crates/bevy_dev_tools/src/lib.rs` and
`src/crates/bevy_dev_tools/src/fly_camera.rs`).

Conventions of the embedding:
* A tool type `T` is an arbitrary Lean type `α` together with a `DevTool`
  instance (the `DevTool` trait of lib.rs) and a `Reflectable` instance (the
  external `bevy_reflect` facility, which is not under `src/`).
* `f32` values are modelled as rationals: in this core they are only stored
  and compared, never computed with, and the literals that occur (`3.0`,
  `10.0`) are exactly representable.
* The host's `World` is modelled as the resource slot for the one live `α`
  instance plus an opaque remainder `ρ` standing for every other resource,
  entity and component the world holds.
* A `Box<dyn DevTool>` produced by a vtable built at concrete type `D` is a
  boxed `D` observed through `D`'s own trait impl, so it is modelled as a
  plain value of `α`; a `Box<dyn DevCommand>` is modelled by its observable
  interface (`DevCommand::apply`).
-/

set_option autoImplicit false

namespace BevyDevTools

/-- Modelled from the spec: the opaque reflected representation produced by the
external reflection facility (`bevy_reflect`, not under `src/`): a dynamic,
introspectable value (booleans, floats, options, field-name/value structs). -/
inductive Reflected where
  | bool : Bool → Reflected
  | float : ℚ → Reflected
  | opt : Option Reflected → Reflected
  | struct : List (String × Reflected) → Reflected

/-- The `DevTool` trait of lib.rs (lines 68–78): `set_enabled` / `is_enabled`.
Rust mutates the receiver in place; the embedding returns the updated value. -/
class DevTool (α : Type) where
  set_enabled : α → Bool → α
  is_enabled : α → Bool

/-- Modelled from the spec: the external reflection facility instantiated at a
registrable type — `describe` (value → opaque) and `reconstruct`
(`from_reflect`, opaque → value or failure), with the facility's guarantee
that a value's own description reconstructs to that value ("convertible back
to that type given its static identity"). -/
class Reflectable (α : Type) where
  describe : α → Reflected
  from_reflect : Reflected → Option α
  from_reflect_describe : ∀ a : α, from_reflect (describe a) = some a

/-- Modelled from the spec: the host's shared state store (`World` of
`bevy_ecs`, not under `src/`), restricted to the resource slot for the live
tool instance of type `α`; `rest` abstracts all other contents of the world. -/
structure World (α : Type) (ρ : Type) where
  tool : Option α
  rest : ρ

/-- Modelled from the spec: `World::get_resource::<T>()` — the live `T`
instance, if present; a pure read. -/
def World.get_resource {α ρ : Type} (w : World α ρ) : Option α :=
  w.tool

/-- Modelled from the spec: `World/App::init_resource::<T>()` — insert a
default-constructed `T` only if no `T` resource is present. -/
def World.init_resource {α ρ : Type} [Inhabited α] (w : World α ρ) : World α ρ :=
  if w.tool.isSome then w else { w with tool := some default }

/-- Modelled from the spec: `World/App::insert_resource(value)` — seed the
store with `value`, overwriting any existing `T` resource. -/
def World.insert_resource {α ρ : Type} (w : World α ρ) (v : α) : World α ρ :=
  { w with tool := some v }

/-- `ReflectDevTool` (lib.rs lines 80–99): the per-type vtable for a tool.
`get_reflect` yields the live instance as its reflected (`&dyn Reflect`) view,
`get` yields it as the capability (`&dyn DevTool`) view, `from_reflect`
reconstructs a boxed tool from an opaque payload. -/
structure ReflectDevTool (α : Type) (ρ : Type) where
  get_reflect : World α ρ → Option Reflected
  get : World α ρ → Option α
  from_reflect : Reflected → Option α

/-- `impl FromType<D> for ReflectDevTool` (lib.rs lines 101–114): builds the
vtable from `D`'s own impls — `get_reflect`/`get` look up the live resource,
`from_reflect` delegates to `D::from_reflect` and boxes the result. -/
def ReflectDevTool.fromType (α ρ : Type) [DevTool α] [Reflectable α] :
    ReflectDevTool α ρ where
  get_reflect := fun w => w.get_resource.map (fun d => Reflectable.describe d)
  get := fun w => w.get_resource.map (fun d => d)
  from_reflect := fun r => (Reflectable.from_reflect r).map (fun d => d)

/-- `Enable<T>` (lib.rs lines 149–153): carries a full copy of the tool. -/
structure Enable (α : Type) where
  dev_tool : α

/-- `Disable<T>` (lib.rs lines 162–166). -/
structure Disable (α : Type) where
  dev_tool : α

/-- `Toggle<T>` (lib.rs lines 178–182). -/
structure Toggle (α : Type) where
  dev_tool : α

/-- `impl Command for Enable<T>` (lib.rs lines 155–159):
`fn apply(mut self, _world) { self.dev_tool.set_enabled(true); }`.
The body mutates the command's own carried copy and ignores `_world`; the
embedding returns the final state of the consumed `self` (then dropped)
together with the world. -/
def Enable.commandApply {α ρ : Type} [DevTool α] (c : Enable α) (w : World α ρ) :
    Enable α × World α ρ :=
  ({ dev_tool := DevTool.set_enabled c.dev_tool true }, w)

/-- `impl Command for Disable<T>` (lib.rs lines 168–172): as `Enable`, with
`set_enabled(false)`. -/
def Disable.commandApply {α ρ : Type} [DevTool α] (c : Disable α) (w : World α ρ) :
    Disable α × World α ρ :=
  ({ dev_tool := DevTool.set_enabled c.dev_tool false }, w)

/-- `impl Command for Toggle<T>` (lib.rs lines 184–188):
`self.dev_tool.set_enabled(!self.dev_tool.is_enabled())` — the negation is
read from the command's own carried copy. -/
def Toggle.commandApply {α ρ : Type} [DevTool α] (c : Toggle α) (w : World α ρ) :
    Toggle α × World α ρ :=
  ({ dev_tool := DevTool.set_enabled c.dev_tool (!DevTool.is_enabled c.dev_tool) }, w)

/-- `DevCommand::apply` default body (lib.rs lines 116–123):
`fn apply(&self, world: &mut World) {}` — empty, ignores both the command and
the world. None of `Enable`/`Disable`/`Toggle` overrides it. -/
def devCommandApplyDefault {α ρ : Type} (w : World α ρ) : World α ρ :=
  w

/-- A reconstructed `Box<dyn DevCommand>`: its observable interface is the
object-safe `DevCommand::apply`. -/
structure BoxedDevCommand (α : Type) (ρ : Type) where
  apply : World α ρ → World α ρ

/-- Boxing an `Enable<T>` as `Box<dyn DevCommand>`: `DevCommand::apply` is the
default empty body, which ignores the carried payload. -/
def Enable.box {α ρ : Type} (_c : Enable α) : BoxedDevCommand α ρ where
  apply := fun w => devCommandApplyDefault w

/-- Boxing a `Disable<T>` as `Box<dyn DevCommand>`. -/
def Disable.box {α ρ : Type} (_c : Disable α) : BoxedDevCommand α ρ where
  apply := fun w => devCommandApplyDefault w

/-- Boxing a `Toggle<T>` as `Box<dyn DevCommand>`. -/
def Toggle.box {α ρ : Type} (_c : Toggle α) : BoxedDevCommand α ρ where
  apply := fun w => devCommandApplyDefault w

/-- Modelled from the spec: the reflected representation of
`Enable<T> { dev_tool: T }` produced by the derived `Reflect` impl
(`#[derive(Reflect)]` on lib.rs line 149, expansion not under `src/`). -/
def Enable.describe {α : Type} [Reflectable α] (c : Enable α) : Reflected :=
  .struct [("dev_tool", Reflectable.describe c.dev_tool)]

/-- Modelled from the spec: the derived `FromReflect` impl for `Enable<T>` —
succeeds only on a one-field struct of matching shape. -/
def Enable.from_reflect {α : Type} [Reflectable α] : Reflected → Option (Enable α)
  | .struct [("dev_tool", r)] => (Reflectable.from_reflect r).map Enable.mk
  | _ => none

instance {α : Type} [Reflectable α] : Reflectable (Enable α) where
  describe := Enable.describe
  from_reflect := Enable.from_reflect
  from_reflect_describe := fun c => by
    cases c with
    | mk d => simp [Enable.describe, Enable.from_reflect, Reflectable.from_reflect_describe]

/-- Modelled from the spec: the derived `Reflect` representation of
`Disable<T>` (lib.rs line 162). -/
def Disable.describe {α : Type} [Reflectable α] (c : Disable α) : Reflected :=
  .struct [("dev_tool", Reflectable.describe c.dev_tool)]

/-- Modelled from the spec: the derived `FromReflect` impl for `Disable<T>`. -/
def Disable.from_reflect {α : Type} [Reflectable α] : Reflected → Option (Disable α)
  | .struct [("dev_tool", r)] => (Reflectable.from_reflect r).map Disable.mk
  | _ => none

instance {α : Type} [Reflectable α] : Reflectable (Disable α) where
  describe := Disable.describe
  from_reflect := Disable.from_reflect
  from_reflect_describe := fun c => by
    cases c with
    | mk d => simp [Disable.describe, Disable.from_reflect, Reflectable.from_reflect_describe]

/-- Modelled from the spec: the derived `Reflect` representation of
`Toggle<T>` (lib.rs line 178). -/
def Toggle.describe {α : Type} [Reflectable α] (c : Toggle α) : Reflected :=
  .struct [("dev_tool", Reflectable.describe c.dev_tool)]

/-- Modelled from the spec: the derived `FromReflect` impl for `Toggle<T>`. -/
def Toggle.from_reflect {α : Type} [Reflectable α] : Reflected → Option (Toggle α)
  | .struct [("dev_tool", r)] => (Reflectable.from_reflect r).map Toggle.mk
  | _ => none

instance {α : Type} [Reflectable α] : Reflectable (Toggle α) where
  describe := Toggle.describe
  from_reflect := Toggle.from_reflect
  from_reflect_describe := fun c => by
    cases c with
    | mk d => simp [Toggle.describe, Toggle.from_reflect, Reflectable.from_reflect_describe]

/-- `ReflectDevCommand` (lib.rs lines 125–134): the per-type vtable for a
command — `from_reflect` reconstructs a boxed `dyn DevCommand`. -/
structure ReflectDevCommand (α : Type) (ρ : Type) where
  from_reflect : Reflected → Option (BoxedDevCommand α ρ)

/-- `impl FromType<Enable<T>> for ReflectDevCommand` (lib.rs lines 136–147):
delegate to the concrete type's `from_reflect`, then box the result. -/
def ReflectDevCommand.fromTypeEnable (α ρ : Type) [DevTool α] [Reflectable α] :
    ReflectDevCommand α ρ where
  from_reflect := fun r =>
    (Reflectable.from_reflect (α := Enable α) r).map (fun c => Enable.box c)

/-- `impl FromType<Disable<T>> for ReflectDevCommand` (lib.rs lines 136–147). -/
def ReflectDevCommand.fromTypeDisable (α ρ : Type) [DevTool α] [Reflectable α] :
    ReflectDevCommand α ρ where
  from_reflect := fun r =>
    (Reflectable.from_reflect (α := Disable α) r).map (fun c => Disable.box c)

/-- `impl FromType<Toggle<T>> for ReflectDevCommand` (lib.rs lines 136–147). -/
def ReflectDevCommand.fromTypeToggle (α ρ : Type) [DevTool α] [Reflectable α] :
    ReflectDevCommand α ρ where
  from_reflect := fun r =>
    (Reflectable.from_reflect (α := Toggle α) r).map (fun c => Toggle.box c)

/-- Modelled from the spec: the type registry (`bevy_reflect::TypeRegistry`,
not under `src/`) restricted to the four type identifiers the registration API
touches for one tool type `T`: `T`, `Enable<T>`, `Disable<T>`, `Toggle<T>`.
Distinct types never collide, so each has its own slot; a type's registration
(and hence its vtable) is a pure function of the type, so a slot only records
whether the type has been registered. -/
structure TypeRegistry where
  toolRegistered : Bool
  enableRegistered : Bool
  disableRegistered : Bool
  toggleRegistered : Bool
deriving DecidableEq

/-- Registry lookup of `T`'s type identifier: the stored `ReflectDevTool`
type data (built by `FromType` at registration), or `none` on a lookup miss. -/
def TypeRegistry.getToolData (reg : TypeRegistry) (α ρ : Type)
    [DevTool α] [Reflectable α] : Option (ReflectDevTool α ρ) :=
  if reg.toolRegistered then some (ReflectDevTool.fromType α ρ) else none

/-- Registry lookup of `Enable<T>`'s type identifier. -/
def TypeRegistry.getEnableData (reg : TypeRegistry) (α ρ : Type)
    [DevTool α] [Reflectable α] : Option (ReflectDevCommand α ρ) :=
  if reg.enableRegistered then some (ReflectDevCommand.fromTypeEnable α ρ) else none

/-- Registry lookup of `Disable<T>`'s type identifier. -/
def TypeRegistry.getDisableData (reg : TypeRegistry) (α ρ : Type)
    [DevTool α] [Reflectable α] : Option (ReflectDevCommand α ρ) :=
  if reg.disableRegistered then some (ReflectDevCommand.fromTypeDisable α ρ) else none

/-- Registry lookup of `Toggle<T>`'s type identifier. -/
def TypeRegistry.getToggleData (reg : TypeRegistry) (α ρ : Type)
    [DevTool α] [Reflectable α] : Option (ReflectDevCommand α ρ) :=
  if reg.toggleRegistered then some (ReflectDevCommand.fromTypeToggle α ρ) else none

/-- The `App`: the shared state store plus the type registry. -/
structure App (α : Type) (ρ : Type) where
  world : World α ρ
  registry : TypeRegistry

/-- Modelled from the spec: `App::register_type::<T>()` — record `T`'s
registration; a no-op if `T` is already registered (write-once per key), which
for the boolean slot is simply setting it. -/
def App.register_type_tool {α ρ : Type} (app : App α ρ) : App α ρ :=
  { app with registry := { app.registry with toolRegistered := true } }

/-- `register_dev_command::<Enable<T>>()` (lib.rs lines 228–232): registers
the command type via `register_type`. -/
def App.register_dev_command_enable {α ρ : Type} (app : App α ρ) : App α ρ :=
  { app with registry := { app.registry with enableRegistered := true } }

/-- `register_dev_command::<Disable<T>>()` (lib.rs lines 228–232). -/
def App.register_dev_command_disable {α ρ : Type} (app : App α ρ) : App α ρ :=
  { app with registry := { app.registry with disableRegistered := true } }

/-- `register_dev_command::<Toggle<T>>()` (lib.rs lines 228–232). -/
def App.register_dev_command_toggle {α ρ : Type} (app : App α ρ) : App α ρ :=
  { app with registry := { app.registry with toggleRegistered := true } }

/-- `init_dev_tool::<T>()` (lib.rs lines 207–215): `register_type::<T>()`,
`init_resource::<T>()`, then register the three command types. -/
def App.init_dev_tool {α ρ : Type} [Inhabited α] (app : App α ρ) : App α ρ :=
  let a1 := app.register_type_tool
  let a2 : App α ρ := { a1 with world := a1.world.init_resource }
  a2.register_dev_command_enable.register_dev_command_disable.register_dev_command_toggle

/-- `insert_dev_tool::<T>(tool)` (lib.rs lines 217–226): as `init_dev_tool`
but seeds the store with `tool` via `insert_resource`. -/
def App.insert_dev_tool {α ρ : Type} (app : App α ρ) (tool : α) : App α ρ :=
  let a1 := app.register_type_tool
  let a2 : App α ρ := { a1 with world := a1.world.insert_resource tool }
  a2.register_dev_command_enable.register_dev_command_disable.register_dev_command_toggle

/-- `DevFlyCamera` (fly_camera.rs lines 20–26); `f32` speeds modelled as
rationals (stored and compared only). -/
structure DevFlyCamera where
  enabled : Bool
  movement_speed : Option ℚ
  turn_speed : Option ℚ
deriving DecidableEq

/-- `impl Default for DevFlyCamera` (fly_camera.rs lines 28–36). -/
def DevFlyCamera.default : DevFlyCamera :=
  { enabled := true, movement_speed := some 3, turn_speed := some 10 }

instance : Inhabited DevFlyCamera := ⟨DevFlyCamera.default⟩

/-- `impl DevTool for DevFlyCamera` (fly_camera.rs lines 38–46). -/
instance : DevTool DevFlyCamera where
  set_enabled := fun c b => { c with enabled := b }
  is_enabled := fun c => c.enabled

/-- Modelled from the spec: the derived `Reflect` representation of
`DevFlyCamera` (`#[derive(Reflect)]`, fly_camera.rs line 20). -/
def DevFlyCamera.describe (c : DevFlyCamera) : Reflected :=
  .struct [("enabled", .bool c.enabled),
           ("movement_speed", .opt (c.movement_speed.map .float)),
           ("turn_speed", .opt (c.turn_speed.map .float))]

/-- Modelled from the spec: reading an `Option<f32>` field back from its
reflected form; fails on any other shape. -/
def reflectOptFloat : Reflected → Option (Option ℚ)
  | .opt none => some none
  | .opt (some (.float f)) => some (some f)
  | _ => none

/-- Modelled from the spec: the derived `FromReflect` impl for `DevFlyCamera`
— succeeds only on a struct of matching shape. -/
def DevFlyCamera.from_reflect : Reflected → Option DevFlyCamera
  | .struct [("enabled", .bool e), ("movement_speed", ms), ("turn_speed", ts)] =>
    match reflectOptFloat ms, reflectOptFloat ts with
    | some m, some t => some { enabled := e, movement_speed := m, turn_speed := t }
    | _, _ => none
  | _ => none

instance : Reflectable DevFlyCamera where
  describe := DevFlyCamera.describe
  from_reflect := DevFlyCamera.from_reflect
  from_reflect_describe := fun c => by
    cases c with
    | mk e ms ts => cases ms <;> cases ts <;> rfl

/-- A live `DevFlyCamera` whose enabled flag is off (the spec scenario's
"disabled tool" state). -/
def sampleDisabledCamera : DevFlyCamera :=
  { enabled := false, movement_speed := some 3, turn_speed := some 10 }

/-- A world holding the disabled camera as its live tool instance. -/
def sampleWorld : World DevFlyCamera Unit :=
  { tool := some sampleDisabledCamera, rest := () }

/-- An app with an empty registry and no live tool instance. -/
def emptyApp : App DevFlyCamera Unit :=
  { world := { tool := none, rest := () },
    registry := { toolRegistered := false, enableRegistered := false,
                  disableRegistered := false, toggleRegistered := false } }

/-- C1: the claim says applying a reconstructed `Enable<T>` sets the live
tool's enabled flag in the shared state store to true. Evaluating the code at
a failing input: with a live disabled `DevFlyCamera`, the reconstructed boxed
command applies via the default empty `DevCommand::apply` body (a no-op on the
world), and the by-value `Command::apply` mutates only the command's own
carried, discarded copy — the live flag stays `false` either way. -/
theorem enable_apply_leaves_live_flag_false :
    ((ReflectDevCommand.fromTypeEnable DevFlyCamera Unit).from_reflect
        (Reflectable.describe (Enable.mk (default : DevFlyCamera)))).map
        (fun b => (b.apply sampleWorld).tool) = some (some sampleDisabledCamera) ∧
    ((Enable.mk (default : DevFlyCamera)).commandApply sampleWorld).2.tool
      = some sampleDisabledCamera := by
  constructor
  · simp [ReflectDevCommand.fromTypeEnable, Reflectable.from_reflect_describe,
      Enable.box, devCommandApplyDefault, sampleWorld]
  · rfl

/-- C2: the claim says applying a `Toggle<T>` built from snapshot `v` sets the
live flag to `!v.is_enabled()`. Evaluating the code at a failing input: with
snapshot `v = sampleDisabledCamera` (`is_enabled = false`) and a live disabled
camera, the claim demands the live flag become `true`, but the reconstructed
boxed command is a no-op on the world and `Command::apply` writes the negation
only into the command's own carried, discarded copy. -/
theorem toggle_apply_leaves_live_flag_false :
    ((ReflectDevCommand.fromTypeToggle DevFlyCamera Unit).from_reflect
        (Reflectable.describe (Toggle.mk sampleDisabledCamera))).map
        (fun b => (b.apply sampleWorld).tool) = some (some sampleDisabledCamera) ∧
    ((Toggle.mk sampleDisabledCamera).commandApply sampleWorld).2.tool
      = some sampleDisabledCamera ∧
    ((Toggle.mk sampleDisabledCamera).commandApply sampleWorld).1.dev_tool
      = { sampleDisabledCamera with enabled := true } := by
  refine ⟨?_, rfl, by decide⟩
  simp [ReflectDevCommand.fromTypeToggle, Reflectable.from_reflect_describe,
    Toggle.box, devCommandApplyDefault, sampleWorld]

/-- C3: after `init_dev_tool::<T>()` on an app with no live `T` instance, the
store holds `T::default()`, the registry maps `T`'s identifier to the
`ReflectDevTool` vtable built by `FromType` — whose `describe` (`get_reflect`)
succeeds and whose capability view (`get`) returns a tool with `is_enabled`
equal to `T::default().is_enabled()` — and the three command types
`Enable<T>`, `Disable<T>`, `Toggle<T>` are registered. -/
theorem init_dev_tool_registers {α ρ : Type} [DevTool α] [Reflectable α] [Inhabited α]
    (app : App α ρ) (h : app.world.tool = none) :
    app.init_dev_tool.world.tool = some (default : α) ∧
    app.init_dev_tool.registry.getToolData α ρ = some (ReflectDevTool.fromType α ρ) ∧
    ((ReflectDevTool.fromType α ρ).get_reflect app.init_dev_tool.world).isSome = true ∧
    (ReflectDevTool.fromType α ρ).get app.init_dev_tool.world = some (default : α) ∧
    ((ReflectDevTool.fromType α ρ).get app.init_dev_tool.world).map DevTool.is_enabled
      = some (DevTool.is_enabled (default : α)) ∧
    app.init_dev_tool.registry.getEnableData α ρ = some (ReflectDevCommand.fromTypeEnable α ρ) ∧
    app.init_dev_tool.registry.getDisableData α ρ = some (ReflectDevCommand.fromTypeDisable α ρ) ∧
    app.init_dev_tool.registry.getToggleData α ρ = some (ReflectDevCommand.fromTypeToggle α ρ) := by
  have ht : app.init_dev_tool.world.tool = some (default : α) := by
    simp [App.init_dev_tool, App.register_type_tool, App.register_dev_command_enable,
      App.register_dev_command_disable, App.register_dev_command_toggle,
      World.init_resource, h]
  refine ⟨ht, ?_, ?_, ?_, ?_, ?_, ?_, ?_⟩
  · simp [App.init_dev_tool, App.register_type_tool, App.register_dev_command_enable,
      App.register_dev_command_disable, App.register_dev_command_toggle,
      TypeRegistry.getToolData]
  · simp [ReflectDevTool.fromType, World.get_resource, ht]
  · simp [ReflectDevTool.fromType, World.get_resource, ht]
  · simp [ReflectDevTool.fromType, World.get_resource, ht]
  · simp [App.init_dev_tool, App.register_type_tool, App.register_dev_command_enable,
      App.register_dev_command_disable, App.register_dev_command_toggle,
      TypeRegistry.getEnableData]
  · simp [App.init_dev_tool, App.register_type_tool, App.register_dev_command_enable,
      App.register_dev_command_disable, App.register_dev_command_toggle,
      TypeRegistry.getDisableData]
  · simp [App.init_dev_tool, App.register_type_tool, App.register_dev_command_enable,
      App.register_dev_command_disable, App.register_dev_command_toggle,
      TypeRegistry.getToggleData]

/-- Witness for C3 at the concrete tool `DevFlyCamera` and the empty app. -/
theorem init_dev_tool_registers_witness :
    emptyApp.world.tool = none ∧
    emptyApp.init_dev_tool.world.tool = some (default : DevFlyCamera) :=
  ⟨rfl, (init_dev_tool_registers emptyApp rfl).1⟩

/-- C4: applying `Enable<T>`, `Disable<T>` or `Toggle<T>` leaves the world
entirely unchanged — `Command::apply` mutates only the command's own carried
copy (returned here, then dropped), and `DevCommand::apply` on reconstructed
boxed commands is the default empty body, a no-op on the world. -/
theorem command_apply_leaves_world_unchanged {α ρ : Type} [DevTool α]
    (e : Enable α) (d : Disable α) (t : Toggle α) (w : World α ρ) :
    (e.commandApply w).2 = w ∧
    (d.commandApply w).2 = w ∧
    (t.commandApply w).2 = w ∧
    (e.commandApply w).1 = { dev_tool := DevTool.set_enabled e.dev_tool true } ∧
    (d.commandApply w).1 = { dev_tool := DevTool.set_enabled d.dev_tool false } ∧
    (t.commandApply w).1
      = { dev_tool := DevTool.set_enabled t.dev_tool (!DevTool.is_enabled t.dev_tool) } ∧
    (Enable.box e : BoxedDevCommand α ρ).apply w = w ∧
    (Disable.box d : BoxedDevCommand α ρ).apply w = w ∧
    (Toggle.box t : BoxedDevCommand α ρ).apply w = w :=
  ⟨rfl, rfl, rfl, rfl, rfl, rfl, rfl, rfl, rfl⟩

/-- C5: every fallible runtime operation returns an absent value: on a world
with no live `T`, the vtable's `get_reflect` and `get` return `none`; on an
opaque payload whose shape does not match the target type, the tool vtable's
and each command vtable's `from_reflect` return `none`. All the operations are
total Lean functions, so no panic path exists in the embedding. -/
theorem fallible_ops_return_none {α ρ : Type} [DevTool α] [Reflectable α]
    (w : World α ρ) (r : Reflected)
    (h1 : w.tool = none)
    (h2 : Reflectable.from_reflect (α := α) r = none)
    (h3 : Reflectable.from_reflect (α := Enable α) r = none)
    (h4 : Reflectable.from_reflect (α := Disable α) r = none)
    (h5 : Reflectable.from_reflect (α := Toggle α) r = none) :
    (ReflectDevTool.fromType α ρ).get_reflect w = none ∧
    (ReflectDevTool.fromType α ρ).get w = none ∧
    (ReflectDevTool.fromType α ρ).from_reflect r = none ∧
    (ReflectDevCommand.fromTypeEnable α ρ).from_reflect r = none ∧
    (ReflectDevCommand.fromTypeDisable α ρ).from_reflect r = none ∧
    (ReflectDevCommand.fromTypeToggle α ρ).from_reflect r = none := by
  simp [ReflectDevTool.fromType, ReflectDevCommand.fromTypeEnable,
    ReflectDevCommand.fromTypeDisable, ReflectDevCommand.fromTypeToggle,
    World.get_resource, h1, h2, h3, h4, h5]

/-- Witness for C5: an empty world and the shape-mismatched payload
`Reflected.bool true`. -/
theorem fallible_ops_return_none_witness :
    ({ tool := none, rest := () } : World DevFlyCamera Unit).tool = none ∧
    Reflectable.from_reflect (α := DevFlyCamera) (.bool true) = none ∧
    (ReflectDevTool.fromType DevFlyCamera Unit).get { tool := none, rest := () } = none ∧
    (ReflectDevCommand.fromTypeEnable DevFlyCamera Unit).from_reflect (.bool true) = none := by
  have h := fallible_ops_return_none (α := DevFlyCamera) (ρ := Unit)
    { tool := none, rest := () } (.bool true) rfl rfl rfl rfl rfl
  exact ⟨rfl, rfl, h.2.1, h.2.2.2.1⟩

/-- C6: registration is idempotent — `init_dev_tool::<T>()` twice equals once
(in particular the live instance seeded by the first call survives the
second), and likewise each `register_dev_command` call. -/
theorem registration_idempotent {α ρ : Type} [Inhabited α] (app : App α ρ) :
    app.init_dev_tool.init_dev_tool = app.init_dev_tool ∧
    app.register_dev_command_enable.register_dev_command_enable
      = app.register_dev_command_enable ∧
    app.register_dev_command_disable.register_dev_command_disable
      = app.register_dev_command_disable ∧
    app.register_dev_command_toggle.register_dev_command_toggle
      = app.register_dev_command_toggle := by
  refine ⟨?_, rfl, rfl, rfl⟩
  cases app with
  | mk w reg =>
    cases w with
    | mk tool rest => cases tool <;> rfl

/-- C7: `insert_dev_tool::<T>(v)` performs the same registration steps as
`init_dev_tool::<T>()` (identical resulting registry) except that the store is
seeded with `v`; afterwards the live `T` instance equals `v`, and the rest of
the world is untouched. -/
theorem insert_dev_tool_spec {α ρ : Type} [Inhabited α] (app : App α ρ) (v : α) :
    (app.insert_dev_tool v).registry = app.init_dev_tool.registry ∧
    (app.insert_dev_tool v).world.tool = some v ∧
    (app.insert_dev_tool v).world.rest = app.world.rest :=
  ⟨rfl, rfl, rfl⟩

/-- C8: round-trip through the reflection boundary — reconstructing from the
described form of any tool value `v` via the `ReflectDevTool` vtable yields a
boxed tool whose `is_enabled` equals `v.is_enabled()`. -/
theorem from_reflect_describe_round_trip {α ρ : Type} [DevTool α] [Reflectable α] (v : α) :
    ∃ b, (ReflectDevTool.fromType α ρ).from_reflect (Reflectable.describe v) = some b ∧
      DevTool.is_enabled b = DevTool.is_enabled v :=
  ⟨v, by simp [ReflectDevTool.fromType, Reflectable.from_reflect_describe], rfl⟩

/-- C9: the `get` and `get_reflect` function pointers built by `FromType<T>`
agree — each returns `some` exactly when the world holds a live `T` instance
(they are pure reads by construction, taking the world by shared reference),
and when it does, both views are of the same live instance `t`: `get` returns
`t` and `get_reflect` returns `t`'s reflected view, which reconstructs to `t`
(so both views report the same enabled flag). -/
theorem get_and_get_reflect_agree {α ρ : Type} [DevTool α] [Reflectable α]
    (w : World α ρ) :
    ((ReflectDevTool.fromType α ρ).get_reflect w).isSome = w.tool.isSome ∧
    ((ReflectDevTool.fromType α ρ).get w).isSome = w.tool.isSome ∧
    ∀ t : α, w.tool = some t →
      (ReflectDevTool.fromType α ρ).get w = some t ∧
      (ReflectDevTool.fromType α ρ).get_reflect w = some (Reflectable.describe t) ∧
      Reflectable.from_reflect (Reflectable.describe t) = some t := by
  refine ⟨?_, ?_, ?_⟩
  · simp [ReflectDevTool.fromType, World.get_resource]
  · simp [ReflectDevTool.fromType, World.get_resource]
  · intro t ht
    simp [ReflectDevTool.fromType, World.get_resource, ht,
      Reflectable.from_reflect_describe]

/-- Witness for C9 at a world holding a live disabled `DevFlyCamera`. -/
theorem get_and_get_reflect_agree_witness :
    sampleWorld.tool = some sampleDisabledCamera ∧
    (ReflectDevTool.fromType DevFlyCamera Unit).get sampleWorld
      = some sampleDisabledCamera ∧
    (ReflectDevTool.fromType DevFlyCamera Unit).get_reflect sampleWorld
      = some (Reflectable.describe sampleDisabledCamera) :=
  ⟨rfl, ((get_and_get_reflect_agree sampleWorld).2.2 sampleDisabledCamera rfl).1,
    ((get_and_get_reflect_agree sampleWorld).2.2 sampleDisabledCamera rfl).2.1⟩

/-- C10: for `DevFlyCamera`, `set_enabled(b)` makes `is_enabled()` return `b`
and leaves `movement_speed` and `turn_speed` unchanged; its `Default` instance
has `enabled = true`, `movement_speed = Some(3.0)`, `turn_speed = Some(10.0)`. -/
theorem devFlyCamera_set_enabled_spec (c : DevFlyCamera) (b : Bool) :
    DevTool.is_enabled (DevTool.set_enabled c b) = b ∧
    (DevTool.set_enabled c b).movement_speed = c.movement_speed ∧
    (DevTool.set_enabled c b).turn_speed = c.turn_speed ∧
    (default : DevFlyCamera)
      = { enabled := true, movement_speed := some 3, turn_speed := some 10 } :=
  ⟨rfl, rfl, rfl, rfl⟩

end BevyDevTools
